import Mathlib

/-!
Verification of the MicroPython MCP9808 temperature-sensor driver
(`micropython_mcp9808/mcp9808.py`).

The development shallowly embeds the driver's register codec and its
property setters.  Pure byte-level conversions become Lean functions on
`ℕ`/`ℤ` (Python's float arithmetic in `_convert_temperature` is exact for
the values involved — all intermediate values are multiples of 1/16 well
inside double precision — so `ℚ` models it faithfully).  The I2C bus is a
map from register address to the byte list last written there; setters
return an optional Python-level error together with the resulting bus
state, so "raises before any bus transaction" is visible as an unchanged
bus.  The helper classes `CBits`/`RegisterStruct` live in
`i2c_helpers.py`, which is not part of the sources at hand; the few
operations needed from them are modelled from the spec and marked as such.
-/

namespace MCP9808

/-! ## Register addresses (module constants of `mcp9808.py`) -/

def CONFIG : ℕ := 0x01

def UPPER_TEMP : ℕ := 0x02

def LOWER_TEMP : ℕ := 0x03

def CRITICAL_TEMP : ℕ := 0x04

def TEMP : ℕ := 0x05

def REG_WHOAMI : ℕ := 0x07

def RESOLUTION : ℕ := 0x08

/-! ## Python-level values and errors -/

/-- Python exceptions raised by the driver, with their messages. -/
inductive PyErr where
  | valueError (msg : String)
  | runtimeError (msg : String)
deriving DecidableEq

/-- Python values that can be assigned to a driver property.  `bool` is
kept separate from `int` because Python's `bool` is a subclass of `int`:
`isinstance(True, int)` holds and `True` behaves as the integer 1. -/
inductive PyVal where
  | int (n : ℤ)
  | bool (b : Bool)
  | float (q : ℚ)
  | str (s : String)
  | pynone
deriving DecidableEq

/-- Python's `isinstance(value, int)`: true for `int` and for `bool`
(a subclass of `int`). -/
def isinstance_int : PyVal → Bool
  | .int _ => true
  | .bool _ => true
  | _ => false

/-- The integer a `PyVal` stands for in arithmetic contexts.  In the
driver it is only ever applied after `isinstance(value, int)` has
succeeded, i.e. to `int` and `bool` values; `True` is 1 and `False` is 0. -/
def PyVal.toInt : PyVal → ℤ
  | .int n => n
  | .bool b => if b then 1 else 0
  | _ => 0

/-- Python's `bytes([...])` constructor: succeeds exactly when every
element lies in `range(0, 256)`, otherwise raises `ValueError`. -/
def pyBytes (vs : List ℕ) : Option (List ℕ) :=
  if vs.all (fun v => v < 256) then some vs else none

/-! ## The temperature codec (`MCP9808._convert_temperature`) -/

/-- Embedding of `MCP9808._convert_temperature(temp)`.  `b0` and `b1` are
the two bytes read from a temperature register, high byte first.  The
Python body is

```
temp[0] = temp[0] & 0x1F
if temp[0] & 0x10 == 0x10:
    temp[0] = temp[0] & 0x0F
    return (temp[0] * 16 + temp[1] / 16.0) - 256
return temp[0] * 16 + temp[1] / 16.0
```

All float arithmetic here is exact, so the result is modelled in `ℚ`. -/
def convert_temperature (b0 b1 : ℕ) : ℚ :=
  let t0 := b0 &&& 0x1F
  if t0 &&& 0x10 = 0x10 then
    (((t0 &&& 0x0F : ℕ) : ℚ) * 16 + (b1 : ℚ) / 16) - 256
  else ((t0 : ℕ) : ℚ) * 16 + (b1 : ℚ) / 16

/-- The decoder applied to a raw 13-bit temperature code `raw13`, split
into the high byte (bits 12–8) and low byte (bits 7–0) in which the
driver receives it from the 2-byte big-endian register read. -/
def decodeTemperature (raw13 : ℕ) : ℚ :=
  convert_temperature (raw13 >>> 8) (raw13 &&& 0xFF)

/-- The pure byte computation of `MCP9808._limit_temperatures(temp, _)`:
the pair `(high_byte, low_byte)` it builds from an integer Celsius
value before calling `bytes([high_byte, low_byte])`. -/
def encodeLimitTemperature (celsius : ℤ) : ℕ × ℕ :=
  let temp := celsius.natAbs
  let high_byte := temp >>> 4
  let high_byte := if celsius < 0 then high_byte ||| 0x10 else high_byte
  let low_byte := (temp &&& 0x0F) <<< 4
  (high_byte, low_byte)

/-- Modelled from the spec: `decodeLimitToInt`, the decode of a limit
register's two bytes back to an integer Celsius value (§8's round-trip
property).  The driver's read path (`_get_temperature`) applies
`_convert_temperature` to the two register bytes; on values produced by
the limit encoder the result is integral, and `decodeLimitToInt` is that
value as an integer (taking the floor makes the function total). -/
def decodeLimitToInt (b0 b1 : ℕ) : ℤ :=
  (convert_temperature b0 b1).floor

/-! ## The bus and the stateful operations

The I2C bus is modelled as a map from register address to the byte list
currently stored there.  Each driver operation returns an optional raised
Python error together with the resulting bus state; an operation that
raises before any bus write leaves the state component unchanged. -/

/-- Bus state: the bytes stored at each register address. -/
structure I2CBus where
  regs : ℕ → List ℕ

/-- Embedding of `i2c.writeto_mem(address, register_address, bs)`:
replaces the contents of one register, leaving every other register
untouched. -/
def writeto_mem (bus : I2CBus) (addr : ℕ) (bs : List ℕ) : I2CBus :=
  ⟨fun a => if a = addr then bs else bus.regs a⟩

/-- Big-endian interpretation of a register's bytes as one unsigned
integer.  Modelled from the spec: register bytes are interpreted as a
single big-endian unsigned integer before field extraction (§4.1). -/
def beToNat (bs : List ℕ) : ℕ :=
  bs.foldl (fun acc b => acc * 256 + b) 0

/-- Big-endian byte list of width `w` for the register value `n`. -/
def natToBE (w n : ℕ) : List ℕ :=
  (List.range w).map fun i => n >>> (8 * (w - 1 - i)) &&& 0xFF

/-- Modelled from the spec: the read-modify-write `writeField` of the
Register Access Layer (§4.1), which is what an assignment to a `CBits`
descriptor performs; `i2c_helpers.py` (`CBits.__set__`) is not among the
sources at hand.  It reads the full register, clears the target bits,
ORs in the new value shifted into place and writes the register back. -/
def writeField (bus : I2CBus) (addr byteWidth bitOffset bitWidth value : ℕ) : I2CBus :=
  let reg := beToNat (bus.regs addr)
  let mask := ((1 <<< bitWidth) - 1) <<< bitOffset
  let full := (1 <<< (8 * byteWidth)) - 1
  let cleared := reg &&& (full ^^^ mask)
  let reg2 := cleared ||| ((value &&& ((1 <<< bitWidth) - 1)) <<< bitOffset)
  writeto_mem bus addr (natToBE byteWidth reg2)

/-- Modelled from the spec: the one-byte `RegisterStruct(_REG_WHOAMI, "B")`
read used by the constructor; `i2c_helpers.py` (`RegisterStruct.__get__`)
is not among the sources at hand. -/
def read_device_id (bus : I2CBus) : ℕ :=
  (bus.regs REG_WHOAMI).headD 0

/-- The tuple `hysteresis_values = (HYSTERESIS_0, HYSTERESIS_1_5,
HYSTERESIS_3, HYSTERESIS_6)`. -/
def hysteresis_values : List ℤ := [0b00, 0b01, 0b10, 0b11]

/-- The tuple `power_mode_values = (CONTINUOUS, SHUTDOWN)`. -/
def power_mode_values : List ℤ := [0b00, 0b1]

/-- The tuple `temperature_resolution_values`. -/
def temperature_resolution_values : List ℤ := [0b00, 0b01, 0b10, 0b11]

/-- Embedding of the `hysteresis` property setter: validate against
`hysteresis_values`, then assign to the `CBits(2, _CONFIG, 9, 2, False)`
descriptor (a read-modify-write of the 2-byte CONFIG register). -/
def hysteresis_set (value : ℤ) (bus : I2CBus) : Option PyErr × I2CBus :=
  if value ∉ hysteresis_values then
    (some (PyErr.valueError "Value must be a valid hysteresis setting"), bus)
  else (none, writeField bus CONFIG 2 9 2 value.toNat)

/-- Embedding of the `power_mode` property setter: validate against
`power_mode_values`, then assign to the `CBits(1, _CONFIG, 8, 2, False)`
descriptor. -/
def power_mode_set (value : ℤ) (bus : I2CBus) : Option PyErr × I2CBus :=
  if value ∉ power_mode_values then
    (some (PyErr.valueError "Value must be a valid power_mode setting"), bus)
  else (none, writeField bus CONFIG 2 8 1 value.toNat)

/-- Embedding of the `temperature_resolution` property setter: validate
against `temperature_resolution_values`, then assign to the
`CBits(2, _RESOLUTION, 0)` descriptor (a 1-byte register). -/
def temperature_resolution_set (value : ℤ) (bus : I2CBus) : Option PyErr × I2CBus :=
  if value ∉ temperature_resolution_values then
    (some (PyErr.valueError "Value must be a valid temperature_resolution setting"), bus)
  else (none, writeField bus RESOLUTION 1 0 2 value.toNat)

/-- Embedding of `MCP9808.__init__`: store bus and address, read the
device-identity register, and raise `RuntimeError` when the returned ID
differs from `0x04`.  Nothing else is read, written or configured. -/
def MCP9808_init (bus : I2CBus) : Option PyErr × I2CBus :=
  if read_device_id bus ≠ 0x04 then
    (some (PyErr.runtimeError "Failed to find MCP9808"), bus)
  else (none, bus)

/-- Embedding of `MCP9808._limit_temperatures(temp, register_address)`:
build the sign-magnitude byte pair and write it with
`bytes([high_byte, low_byte])`; `bytes` raises `ValueError` when a
computed value does not fit in a byte. -/
def limit_temperatures (temp : ℤ) (register_address : ℕ) (bus : I2CBus) :
    Option PyErr × I2CBus :=
  let t := temp.natAbs
  let high_byte := t >>> 4
  let high_byte := if temp < 0 then high_byte ||| 0x10 else high_byte
  let low_byte := (t &&& 0x0F) <<< 4
  match pyBytes [high_byte, low_byte] with
  | some bs => (none, writeto_mem bus register_address bs)
  | none => (some (PyErr.valueError "bytes must be in range(0, 256)"), bus)

/-- Embedding of the `temperature_upper` property setter. -/
def temperature_upper_set (value : PyVal) (bus : I2CBus) : Option PyErr × I2CBus :=
  if ¬ isinstance_int value then
    (some (PyErr.valueError "Temperature must be an int value"), bus)
  else limit_temperatures value.toInt UPPER_TEMP bus

/-- Embedding of the `temperature_lower` property setter. -/
def temperature_lower_set (value : PyVal) (bus : I2CBus) : Option PyErr × I2CBus :=
  if ¬ isinstance_int value then
    (some (PyErr.valueError "Temperature must be an int value"), bus)
  else limit_temperatures value.toInt LOWER_TEMP bus

/-- Embedding of the `temperature_critical` property setter. -/
def temperature_critical_set (value : PyVal) (bus : I2CBus) : Option PyErr × I2CBus :=
  if ¬ isinstance_int value then
    (some (PyErr.valueError "Temperature must be an int value"), bus)
  else limit_temperatures value.toInt CRITICAL_TEMP bus

/-- A concrete bus state used by witnesses: every register holds two
zero bytes, except the identity register, which holds `0x04`. -/
def exampleBus : I2CBus :=
  ⟨fun a => if a = REG_WHOAMI then [0x04] else [0, 0]⟩

/-- A bus whose identity register answers `0x05` instead of `0x04`. -/
def busId5 : I2CBus :=
  ⟨fun a => if a = REG_WHOAMI then [0x05] else [0, 0]⟩

end MCP9808

namespace MCP9808

/-! ## Arithmetic forms of the bit operations -/

theorem nat_and_15 (x : ℕ) : x &&& 0x0F = x % 16 := by
  have h := Nat.and_pow_two_sub_one_eq_mod x 4
  norm_num at h
  exact h

theorem nat_and_31 (x : ℕ) : x &&& 0x1F = x % 32 := by
  have h := Nat.and_pow_two_sub_one_eq_mod x 5
  norm_num at h
  exact h

theorem nat_and_255 (x : ℕ) : x &&& 0xFF = x % 256 := by
  have h := Nat.and_pow_two_sub_one_eq_mod x 8
  norm_num at h
  exact h

theorem nat_and_4095 (x : ℕ) : x &&& 0xFFF = x % 4096 := by
  have h := Nat.and_pow_two_sub_one_eq_mod x 12
  norm_num at h
  exact h

theorem nat_and_16 : ∀ y < 32, y &&& 0x10 = if 16 ≤ y then 16 else 0 := by decide

theorem nat_shr_4 (x : ℕ) : x >>> 4 = x / 16 := by
  have h := Nat.shiftRight_eq_div_pow x 4
  norm_num at h
  exact h

theorem nat_shr_8 (x : ℕ) : x >>> 8 = x / 256 := by
  have h := Nat.shiftRight_eq_div_pow x 8
  norm_num at h
  exact h

theorem nat_shr_12 (x : ℕ) : x >>> 12 = x / 4096 := by
  have h := Nat.shiftRight_eq_div_pow x 12
  norm_num at h
  exact h

theorem nat_shl_4 (x : ℕ) : x <<< 4 = x * 16 := by
  have h := Nat.shiftLeft_eq x 4
  norm_num at h
  exact h

/-- Characterization of the decoder in plain `%`/`/` arithmetic: the
masked high byte `b0 & 0x1F` selects the negative branch exactly when its
bit 4 is set, i.e. when `16 ≤ b0 % 32`. -/
theorem convert_temperature_eq (b0 b1 : ℕ) :
    convert_temperature b0 b1 =
      if 16 ≤ b0 % 32 then
        ((b0 % 16 : ℕ) : ℚ) * 16 + (b1 : ℚ) / 16 - 256
      else ((b0 % 32 : ℕ) : ℚ) * 16 + (b1 : ℚ) / 16 := by
  have h32 : b0 % 32 < 32 := Nat.mod_lt _ (by norm_num)
  have hmm : b0 % 32 % 16 = b0 % 16 := Nat.mod_mod_of_dvd b0 (by norm_num)
  simp only [convert_temperature, nat_and_31, nat_and_15, nat_and_16 (b0 % 32) h32]
  by_cases h : 16 ≤ b0 % 32
  · rw [if_pos h, if_pos rfl, if_pos h, hmm]
  · rw [if_neg h, if_neg (by norm_num), if_neg h]

/-- Scratch check that the embedding matches the driver on the spec's
positive example: bytes `0x01 0x04` decode to 16.25 °C. -/
theorem convert_positive_scenario : convert_temperature 0x01 0x04 = 65 / 4 := by
  rw [convert_temperature_eq]
  norm_num

/-- C1: for a 13-bit raw code `r`, the decoder returns
`(r >> 4) + (r & 0xF)/16` when bit 12 is clear (a value ≥ 0), and
`((r & 0xFFF) >> 4) + ((r & 0xFFF) & 0xF)/16 - 256` when bit 12 is set
(a value < 0 and ≥ -256). -/
theorem claim_C1 (r : ℕ) (hr : r < 8192) :
    (r >>> 12 = 0 →
      decodeTemperature r = ((r >>> 4 : ℕ) : ℚ) + ((r &&& 0xF : ℕ) : ℚ) / 16 ∧
      0 ≤ decodeTemperature r) ∧
    (r >>> 12 = 1 →
      decodeTemperature r =
        (((r &&& 0xFFF) >>> 4 : ℕ) : ℚ) + (((r &&& 0xFFF) &&& 0xF : ℕ) : ℚ) / 16 - 256 ∧
      decodeTemperature r < 0 ∧ -256 ≤ decodeTemperature r) := by
  have hd : decodeTemperature r =
      if 16 ≤ r / 256 % 32 then
        ((r / 256 % 16 : ℕ) : ℚ) * 16 + ((r % 256 : ℕ) : ℚ) / 16 - 256
      else ((r / 256 % 32 : ℕ) : ℚ) * 16 + ((r % 256 : ℕ) : ℚ) / 16 := by
    rw [decodeTemperature, nat_shr_8, nat_and_255, convert_temperature_eq]
  have hb : r / 256 < 32 := by omega
  have hmod : r / 256 % 32 = r / 256 := Nat.mod_eq_of_lt hb
  constructor
  · intro h0
    rw [nat_shr_12] at h0
    have hcond : ¬ 16 ≤ r / 256 % 32 := by omega
    rw [hd, if_neg hcond, hmod]
    constructor
    · rw [nat_shr_4, nat_and_15]
      have key : (256 : ℕ) * (r / 256) + r % 256 = 16 * (r / 16) + r % 16 := by omega
      have key' : (256 : ℚ) * ((r / 256 : ℕ) : ℚ) + ((r % 256 : ℕ) : ℚ)
          = 16 * ((r / 16 : ℕ) : ℚ) + ((r % 16 : ℕ) : ℚ) := by
        exact_mod_cast congrArg (fun n : ℕ => (n : ℚ)) key
      field_simp
      linarith
    · positivity
  · intro h1
    rw [nat_shr_12] at h1
    have hcond : 16 ≤ r / 256 % 32 := by omega
    rw [hd, if_pos hcond]
    have hA : ((r / 256 % 16 : ℕ) : ℚ) ≤ 15 := by exact_mod_cast (by omega : r / 256 % 16 ≤ 15)
    have hB : ((r % 256 : ℕ) : ℚ) ≤ 255 := by exact_mod_cast (by omega : r % 256 ≤ 255)
    have hA0 : (0 : ℚ) ≤ ((r / 256 % 16 : ℕ) : ℚ) := by positivity
    have hB0 : (0 : ℚ) ≤ ((r % 256 : ℕ) : ℚ) := by positivity
    refine ⟨?_, by linarith, by linarith⟩
    rw [nat_and_4095, nat_shr_4, nat_and_15]
    have key : (256 : ℕ) * (r / 256 % 16) + r % 256
        = 16 * (r % 4096 / 16) + r % 4096 % 16 := by omega
    have key' : (256 : ℚ) * ((r / 256 % 16 : ℕ) : ℚ) + ((r % 256 : ℕ) : ℚ)
        = 16 * ((r % 4096 / 16 : ℕ) : ℚ) + ((r % 4096 % 16 : ℕ) : ℚ) := by
      exact_mod_cast congrArg (fun n : ℕ => (n : ℚ)) key
    field_simp
    linarith

/-- Witness for C1 at the concrete codes `0x1ED4` (sign bit set) and
`0x0104` (sign bit clear). -/
theorem claim_C1_witness :
    decodeTemperature 0x1ED4 < 0 ∧ 0 ≤ decodeTemperature 0x0104 := by
  have hneg := claim_C1 0x1ED4 (by norm_num)
  have hpos := claim_C1 0x0104 (by norm_num)
  have h1 : (0x1ED4 : ℕ) >>> 12 = 1 := by rw [nat_shr_12]
  have h0 : (0x0104 : ℕ) >>> 12 = 0 := by rw [nat_shr_12]
  exact ⟨(hneg.2 h1).2.1, (hpos.1 h0).2⟩

theorem decodeLimitToInt_eq_floor (b0 b1 : ℕ) :
    decodeLimitToInt b0 b1 = ⌊convert_temperature b0 b1⌋ := by
  rw [decodeLimitToInt, Rat.floor_def', ← Rat.floor_def]

/-- Helper: the decoder on the byte pair the limit encoder produces for
`-1` returns `-255`, not `-1` (sign-magnitude written, offset-256 read). -/
theorem decode_of_encoded_neg_one : decodeLimitToInt 0x10 0x10 = -255 := by
  rw [decodeLimitToInt_eq_floor]
  have h : convert_temperature 0x10 0x10 = ((-255 : ℤ) : ℚ) := by
    rw [convert_temperature_eq]
    norm_num
  rw [h, Int.floor_intCast]

/-- C2, counterexample: the encode/decode/encode round trip fails at the
in-range integer `t = -1`: the encoder writes sign-magnitude bytes
`(0x10, 0x10)`, the decoder reads them back as `-255`, and re-encoding
`-255` gives `(0x1F, 0xF0)`. -/
theorem claim_C2_counterexample :
    encodeLimitTemperature
        (decodeLimitToInt (encodeLimitTemperature (-1)).1 (encodeLimitTemperature (-1)).2)
      ≠ encodeLimitTemperature (-1) := by
  have he : encodeLimitTemperature (-1) = (0x10, 0x10) := by decide
  rw [he]
  show encodeLimitTemperature (decodeLimitToInt 0x10 0x10) ≠ (0x10, 0x10)
  rw [decode_of_encoded_neg_one]
  decide

/-- C2, amended: the round trip
`encodeLimitTemperature (decodeLimitToInt (encodeLimitTemperature t))
 = encodeLimitTemperature t` holds exactly for `t ∈ [0, 127]` together
with `t = -128`; every other negative `t` in `[-128, 127]` is a
counterexample of the same shape as `-1`. -/
theorem claim_C2_amended (t : ℤ) (h : (0 ≤ t ∧ t ≤ 127) ∨ t = -128) :
    encodeLimitTemperature
        (decodeLimitToInt (encodeLimitTemperature t).1 (encodeLimitTemperature t).2)
      = encodeLimitTemperature t := by
  rcases h with ⟨h0, h127⟩ | rfl
  · obtain ⟨n, rfl⟩ : ∃ n : ℕ, t = (n : ℤ) := ⟨t.toNat, (Int.toNat_of_nonneg h0).symm⟩
    have hn : n ≤ 127 := by exact_mod_cast h127
    have hneg : ¬ ((n : ℤ) < 0) := by omega
    have henc : encodeLimitTemperature (n : ℤ) = (n / 16, n % 16 * 16) := by
      simp only [encodeLimitTemperature, if_neg hneg, Int.natAbs_ofNat, nat_shr_4,
        nat_and_15, nat_shl_4]
    rw [henc]
    have hdec : decodeLimitToInt (n / 16) (n % 16 * 16) = (n : ℤ) := by
      rw [decodeLimitToInt_eq_floor]
      have hc : convert_temperature (n / 16) (n % 16 * 16) = ((n : ℤ) : ℚ) := by
        rw [convert_temperature_eq]
        have hcond : ¬ 16 ≤ n / 16 % 32 := by omega
        have hm : n / 16 % 32 = n / 16 := by omega
        rw [if_neg hcond, hm]
        have key : (16 : ℕ) * (n / 16) + n % 16 = n := Nat.div_add_mod n 16
        have key' : (16 : ℚ) * ((n / 16 : ℕ) : ℚ) + ((n % 16 : ℕ) : ℚ) = (n : ℚ) := by
          exact_mod_cast congrArg (fun m : ℕ => (m : ℚ)) key
        push_cast
        field_simp
        linarith
      rw [hc, Int.floor_intCast]
    rw [hdec, henc]
  · have he : encodeLimitTemperature (-128) = (24, 0) := by decide
    rw [he]
    show encodeLimitTemperature (decodeLimitToInt 24 0) = (24, 0)
    have hdec : decodeLimitToInt 24 0 = -128 := by
      rw [decodeLimitToInt_eq_floor]
      have hc : convert_temperature 24 0 = ((-128 : ℤ) : ℚ) := by
        rw [convert_temperature_eq]
        norm_num
      rw [hc, Int.floor_intCast]
    rw [hdec, he]

/-- Witness for the amended C2 at the concrete input `t = 21`. -/
theorem claim_C2_witness :
    (0 ≤ (21 : ℤ) ∧ (21 : ℤ) ≤ 127) ∧
    encodeLimitTemperature
        (decodeLimitToInt (encodeLimitTemperature 21).1 (encodeLimitTemperature 21).2)
      = encodeLimitTemperature 21 :=
  ⟨⟨by norm_num, by norm_num⟩, claim_C2_amended 21 (Or.inl ⟨by norm_num, by norm_num⟩)⟩

/-- C4, counterexample: the raw bytes `0x1E 0xD4` do NOT decode to
-19.75 °C (= -79/4) as the spec's illustrative scenario states. -/
theorem claim_C4_counterexample : convert_temperature 0x1E 0xD4 ≠ -79 / 4 := by
  rw [convert_temperature_eq]
  norm_num

/-- C4, amended: the raw bytes `0x1E 0xD4` decode to -18.75 °C (= -75/4):
the masked magnitude is `0xED4`, `0xED4 >> 4 = 237`, fraction `4/16`,
giving `237.25 - 256 = -18.75`. -/
theorem claim_C4_amended : convert_temperature 0x1E 0xD4 = -75 / 4 := by
  rw [convert_temperature_eq]
  norm_num

end MCP9808
namespace MCP9808


/-! ## Helper lemmas about the stateful operations -/

theorem pyBytes_eq_some {vs ws : List ℕ} (h : pyBytes vs = some ws) : ws = vs := by
  rw [pyBytes] at h
  split at h
  · exact (Option.some.inj h).symm
  · exact absurd h (by simp)

theorem limit_temperatures_frame (t : ℤ) (addr : ℕ) (bus : I2CBus) (a : ℕ)
    (ha : a ≠ addr) :
    ((limit_temperatures t addr bus).2).regs a = bus.regs a := by
  simp only [limit_temperatures]
  split
  · simp [writeto_mem, ha]
  · rfl

theorem limit_temperatures_writes_two (t : ℤ) (addr : ℕ) (bus : I2CBus)
    (h : (limit_temperatures t addr bus).1 = none) :
    (((limit_temperatures t addr bus).2).regs addr).length = 2 := by
  simp only [limit_temperatures] at h ⊢
  split at h
  case _ bs hbs =>
    rw [pyBytes_eq_some hbs]
    simp [writeto_mem]
  case _ => simp at h

theorem limit_temperatures_fst (t : ℤ) (addr : ℕ) (bus : I2CBus) :
    (limit_temperatures t addr bus).1 = none ∨
    (limit_temperatures t addr bus).1
      = some (PyErr.valueError "bytes must be in range(0, 256)") := by
  simp only [limit_temperatures]
  split
  · exact Or.inl rfl
  · exact Or.inr rfl

end MCP9808

namespace MCP9808

/-- C5: each enumerated setter raises `ValueError` exactly when the
written value lies outside its enumerated domain (hysteresis and
resolution over 0–3, power mode over 0–1), and on a raise the bus —
in particular the configuration register — is left unmodified, because
the validation precedes any bus transaction. -/
theorem claim_C5 (v : ℤ) (bus : I2CBus) :
    ((hysteresis_set v bus).1.isSome ↔ v ∉ hysteresis_values) ∧
    (v ∉ hysteresis_values →
      hysteresis_set v bus
        = (some (PyErr.valueError "Value must be a valid hysteresis setting"), bus)) ∧
    ((power_mode_set v bus).1.isSome ↔ v ∉ power_mode_values) ∧
    (v ∉ power_mode_values →
      power_mode_set v bus
        = (some (PyErr.valueError "Value must be a valid power_mode setting"), bus)) ∧
    ((temperature_resolution_set v bus).1.isSome ↔ v ∉ temperature_resolution_values) ∧
    (v ∉ temperature_resolution_values →
      temperature_resolution_set v bus
        = (some (PyErr.valueError "Value must be a valid temperature_resolution setting"),
           bus)) := by
  refine ⟨?_, ?_, ?_, ?_, ?_, ?_⟩
  · by_cases h : v ∈ hysteresis_values <;> simp [hysteresis_set, h]
  · intro h; simp [hysteresis_set, h]
  · by_cases h : v ∈ power_mode_values <;> simp [power_mode_set, h]
  · intro h; simp [power_mode_set, h]
  · by_cases h : v ∈ temperature_resolution_values <;> simp [temperature_resolution_set, h]
  · intro h; simp [temperature_resolution_set, h]

/-- Witness for C5 at the out-of-domain value `4` on a concrete bus. -/
theorem claim_C5_witness :
    ((4 : ℤ) ∉ hysteresis_values) ∧
    hysteresis_set 4 exampleBus
      = (some (PyErr.valueError "Value must be a valid hysteresis setting"), exampleBus) := by
  have h := claim_C5 4 exampleBus
  have hm : (4 : ℤ) ∉ hysteresis_values := by decide
  exact ⟨hm, h.2.1 hm⟩

/-- C6: construction reads the one-byte identity register and raises
exactly when the returned ID differs from `0x04`; in every case the bus
is left untouched (no operating mode is written), so the identity check
is the only validation performed. -/
theorem claim_C6 (bus : I2CBus) :
    ((MCP9808_init bus).1.isSome ↔ read_device_id bus ≠ 0x04) ∧
    (read_device_id bus ≠ 0x04 →
      (MCP9808_init bus).1 = some (PyErr.runtimeError "Failed to find MCP9808")) ∧
    (MCP9808_init bus).2 = bus := by
  refine ⟨?_, ?_, ?_⟩
  · by_cases h : read_device_id bus = 0x04 <;> simp [MCP9808_init, h]
  · intro h; simp [MCP9808_init, h]
  · by_cases h : read_device_id bus = 0x04 <;> simp [MCP9808_init, h]

/-- Witness for C6: a bus answering identity `0x05` makes construction
fail, one answering `0x04` makes it succeed. -/
theorem claim_C6_witness :
    read_device_id busId5 ≠ 0x04 ∧
    (MCP9808_init busId5).1 = some (PyErr.runtimeError "Failed to find MCP9808") ∧
    (MCP9808_init exampleBus).1 = none := by
  have h5 := claim_C6 busId5
  have h4 := claim_C6 exampleBus
  refine ⟨by decide, h5.2.1 (by decide), ?_⟩
  have hnot : ¬ (MCP9808_init exampleBus).1.isSome := fun hs => (h4.1.mp hs) (by decide)
  exact Option.not_isSome_iff_eq_none.mp hnot

/-- C7: every value failing Python's `isinstance(value, int)` makes each
of the three limit setters raise
`ValueError("Temperature must be an int value")` with the bus unchanged:
the validation precedes any bus write. -/
theorem claim_C7 (v : PyVal) (bus : I2CBus) (h : isinstance_int v = false) :
    temperature_upper_set v bus
      = (some (PyErr.valueError "Temperature must be an int value"), bus) ∧
    temperature_lower_set v bus
      = (some (PyErr.valueError "Temperature must be an int value"), bus) ∧
    temperature_critical_set v bus
      = (some (PyErr.valueError "Temperature must be an int value"), bus) := by
  refine ⟨?_, ?_, ?_⟩ <;>
    simp [temperature_upper_set, temperature_lower_set, temperature_critical_set, h]

/-- Witness for C7 at the non-integer value `21.5`. -/
theorem claim_C7_witness :
    isinstance_int (.float (43 / 2)) = false ∧
    temperature_upper_set (.float (43 / 2)) exampleBus
      = (some (PyErr.valueError "Temperature must be an int value"), exampleBus) ∧
    temperature_lower_set (.float (43 / 2)) exampleBus
      = (some (PyErr.valueError "Temperature must be an int value"), exampleBus) ∧
    temperature_critical_set (.float (43 / 2)) exampleBus
      = (some (PyErr.valueError "Temperature must be an int value"), exampleBus) := by
  have h := claim_C7 (.float (43 / 2)) exampleBus rfl
  exact ⟨rfl, h.1, h.2.1, h.2.2⟩

/-- C8: the three limit setters target the distinct register addresses
`0x02`, `0x03` and `0x04`; each setter can change the bus only at its own
address (every other register keeps its bytes), and a successful write
stores exactly two bytes there. -/
theorem claim_C8 :
    UPPER_TEMP = 0x02 ∧ LOWER_TEMP = 0x03 ∧ CRITICAL_TEMP = 0x04 ∧
    (∀ v bus a, a ≠ UPPER_TEMP →
      ((temperature_upper_set v bus).2).regs a = bus.regs a) ∧
    (∀ v bus, (temperature_upper_set v bus).1 = none →
      (((temperature_upper_set v bus).2).regs UPPER_TEMP).length = 2) ∧
    (∀ v bus a, a ≠ LOWER_TEMP →
      ((temperature_lower_set v bus).2).regs a = bus.regs a) ∧
    (∀ v bus, (temperature_lower_set v bus).1 = none →
      (((temperature_lower_set v bus).2).regs LOWER_TEMP).length = 2) ∧
    (∀ v bus a, a ≠ CRITICAL_TEMP →
      ((temperature_critical_set v bus).2).regs a = bus.regs a) ∧
    (∀ v bus, (temperature_critical_set v bus).1 = none →
      (((temperature_critical_set v bus).2).regs CRITICAL_TEMP).length = 2) := by
  refine ⟨rfl, rfl, rfl, ?_, ?_, ?_, ?_, ?_, ?_⟩ <;>
    first
    | (intro v bus a ha
       simp only [temperature_upper_set, temperature_lower_set, temperature_critical_set]
       split
       · rfl
       · exact limit_temperatures_frame _ _ _ _ ha)
    | (intro v bus h
       simp only [temperature_upper_set, temperature_lower_set,
         temperature_critical_set] at h ⊢
       split at h
       case _ hc => exact absurd h (by simp)
       case _ hc =>
         rw [if_neg hc]
         exact limit_temperatures_writes_two _ _ _ h)

/-- Witness for C8: writing the upper limit `21` on a concrete bus leaves
register `0x03` unchanged and stores two bytes at `0x02`. -/
theorem claim_C8_witness :
    (3 ≠ UPPER_TEMP) ∧
    ((temperature_upper_set (.int 21) exampleBus).2).regs 3 = exampleBus.regs 3 ∧
    (temperature_upper_set (.int 21) exampleBus).1 = none ∧
    (((temperature_upper_set (.int 21) exampleBus).2).regs UPPER_TEMP).length = 2 := by
  have h := claim_C8
  exact ⟨by decide, h.2.2.2.1 (.int 21) exampleBus 3 (by decide), rfl,
    h.2.2.2.2.1 (.int 21) exampleBus rfl⟩

/-- C10: Python's `bool` passes the `isinstance(value, int)` validation,
so assigning `True` (resp. `False`) to a limit setter raises nothing and
writes the encoding of the integer 1 (resp. 0); the
`ValueError("Temperature must be an int value")` raise happens exactly
for values that are not instances of `int`. -/
theorem claim_C10 (bus : I2CBus) :
    temperature_upper_set (.bool true) bus
      = (none, writeto_mem bus UPPER_TEMP [0x00, 0x10]) ∧
    temperature_upper_set (.bool true) bus = temperature_upper_set (.int 1) bus ∧
    temperature_upper_set (.bool false) bus
      = (none, writeto_mem bus UPPER_TEMP [0x00, 0x00]) ∧
    temperature_upper_set (.bool false) bus = temperature_upper_set (.int 0) bus ∧
    temperature_lower_set (.bool true) bus = temperature_lower_set (.int 1) bus ∧
    temperature_lower_set (.bool false) bus = temperature_lower_set (.int 0) bus ∧
    temperature_critical_set (.bool true) bus = temperature_critical_set (.int 1) bus ∧
    temperature_critical_set (.bool false) bus = temperature_critical_set (.int 0) bus ∧
    (∀ v, ((temperature_upper_set v bus).1
        = some (PyErr.valueError "Temperature must be an int value")) ↔
      isinstance_int v = false) ∧
    (∀ v, ((temperature_lower_set v bus).1
        = some (PyErr.valueError "Temperature must be an int value")) ↔
      isinstance_int v = false) ∧
    (∀ v, ((temperature_critical_set v bus).1
        = some (PyErr.valueError "Temperature must be an int value")) ↔
      isinstance_int v = false) := by
  refine ⟨rfl, rfl, rfl, rfl, rfl, rfl, rfl, rfl, ?_, ?_, ?_⟩ <;>
    (intro v
     by_cases h : isinstance_int v
     · simp only [temperature_upper_set, temperature_lower_set,
         temperature_critical_set, h, Bool.not_true, Bool.false_eq_true, if_false,
         ite_false]
       rcases limit_temperatures_fst v.toInt UPPER_TEMP bus with h1 | h1 <;>
       rcases limit_temperatures_fst v.toInt LOWER_TEMP bus with h2 | h2 <;>
       rcases limit_temperatures_fst v.toInt CRITICAL_TEMP bus with h3 | h3 <;>
       simp_all
     · simp [temperature_upper_set, temperature_lower_set,
         temperature_critical_set, h])

/-- Witness for C10: assigning `True` on a concrete bus. -/
theorem claim_C10_witness :
    temperature_upper_set (.bool true) exampleBus
      = (none, writeto_mem exampleBus UPPER_TEMP [0x00, 0x10]) ∧
    ((temperature_upper_set (.str "x") exampleBus).1
        = some (PyErr.valueError "Temperature must be an int value")) :=
  ⟨(claim_C10 exampleBus).1, ((claim_C10 exampleBus).2.2.2.2.2.2.2.2.1 (.str "x")).mpr rfl⟩

/-- C3, counterexample: at the integer input `4096` the limit encoder
does not produce and write a byte pair at all: the computed high value
`4096 >> 4 = 256` does not fit in a byte, so `bytes([high, low])` raises
`ValueError` and nothing is written. -/
theorem claim_C3_counterexample :
    limit_temperatures 4096 UPPER_TEMP exampleBus
      = (some (PyErr.valueError "bytes must be in range(0, 256)"), exampleBus) := rfl

/-- C3, amended: for every integer `celsius` with `|celsius| ≤ 4095` the
limit encoder writes to the chosen register exactly the two bytes
`[abs(celsius) >> 4` with `0x10` ORed in iff `celsius` is negative`,
(abs(celsius) & 0xF) << 4]`; for larger magnitudes the high value does
not fit in a byte and `bytes()` raises `ValueError`. -/
theorem claim_C3_amended (c : ℤ) (h : c.natAbs ≤ 4095) (addr : ℕ) (bus : I2CBus) :
    limit_temperatures c addr bus
      = (none, writeto_mem bus addr
          [(c.natAbs >>> 4) ||| (if c < 0 then 0x10 else 0),
           (c.natAbs &&& 0x0F) <<< 4]) := by
  have hhi : c.natAbs >>> 4 < 256 := by rw [nat_shr_4]; omega
  have hhi2 : (if c < 0 then c.natAbs >>> 4 ||| 0x10 else c.natAbs >>> 4) < 256 := by
    have h1 : c.natAbs >>> 4 < 2 ^ 8 := by rw [nat_shr_4]; omega
    have h2 : (0x10 : ℕ) < 2 ^ 8 := by norm_num
    have h3 := Nat.or_lt_two_pow h1 h2
    norm_num at h3
    split
    · exact h3
    · exact hhi
  have hlo : (c.natAbs &&& 0x0F) <<< 4 < 256 := by rw [nat_and_15, nat_shl_4]; omega
  simp only [limit_temperatures]
  have hpb : pyBytes [(if c < 0 then c.natAbs >>> 4 ||| 0x10 else c.natAbs >>> 4),
      (c.natAbs &&& 0x0F) <<< 4]
      = some [(if c < 0 then c.natAbs >>> 4 ||| 0x10 else c.natAbs >>> 4),
              (c.natAbs &&& 0x0F) <<< 4] := by
    rw [pyBytes, if_pos]
    simp [hhi2, hlo]
  rw [hpb]
  by_cases hc : c < 0
  · simp [hc]
  · simp [hc, Nat.or_zero]

/-- Witness for the amended C3 at `celsius = -19`: the bytes `0x11 0x30`
are written to the upper-limit register. -/
theorem claim_C3_witness :
    ((-19 : ℤ).natAbs ≤ 4095) ∧
    limit_temperatures (-19) UPPER_TEMP exampleBus
      = (none, writeto_mem exampleBus UPPER_TEMP [0x11, 0x30]) := by
  refine ⟨by norm_num, ?_⟩
  have h := claim_C3_amended (-19) (by norm_num) UPPER_TEMP exampleBus
  rw [h]
  rfl

/-- C9: the decoded temperature is independent of the three alert-flag
bits.  Two high bytes that agree after masking with `0x1F` — that is,
that differ only in bits 7, 6, 5, the critical/high/low alert flags —
decode identically with any low byte, because `_convert_temperature`
masks the high byte with `0x1F` before interpreting it. -/
theorem claim_C9 (b0 b0' b1 : ℕ) (h : b0 &&& 0x1F = b0' &&& 0x1F) :
    convert_temperature b0 b1 = convert_temperature b0' b1 := by
  simp only [convert_temperature, h]

/-- Witness for C9: the high bytes `0xFF` (all three alert flags set) and
`0x1F` (flags clear) agree below bit 5 and decode identically. -/
theorem claim_C9_witness :
    ((0xFF : ℕ) &&& 0x1F = (0x1F : ℕ) &&& 0x1F) ∧
    convert_temperature 0xFF 0xD4 = convert_temperature 0x1F 0xD4 :=
  ⟨by decide, claim_C9 0xFF 0x1F 0xD4 (by decide)⟩

end MCP9808
